import Mathlib

/-!
# Android addon loader (`androidaddonloader.h`)

A shallow embedding of `AndroidSharedLibraryFactory` and `AndroidSharedLibraryLoader`.

* Raw pointers (`void *`, `AddonFactory *`) are addresses; address `0` is the null pointer,
  so the C++ test `!p` reads `p = nullptr`.
* `fcitx::Library` comes from fcitx-utils, outside this repository.  Its state is an arbitrary
  type `L` and its member functions are the fields of `Library L`; nothing is assumed of them.
* Every call that leaves the class (symbol lookup, entry-point invocation, path lookup,
  opening a library) is recorded, in order, in a list of `Event`s returned next to the result.
* A thrown `std::runtime_error(msg)` is `Except.error msg`.
-/

namespace fcitx

set_option linter.dupNamespace false

/-- Address of an untyped object, `void *`. -/
abbrev VoidPtr := Nat

/-- Address of an addon factory, `AddonFactory *`. -/
abbrev AddonFactoryPtr := Nat

/-- The null pointer. -/
def nullptr : Nat := 0

/-- The constant `FCITX_ADDON_FACTORY_ENTRY` of the anonymous namespace. -/
def FCITX_ADDON_FACTORY_ENTRY : String := "fcitx_addon_factory_instance"

/-- The part of `AddonInfo` the loader reads: the unique name of the addon. -/
structure AddonInfo where
  uniqueName : String
deriving DecidableEq, Repr

/-- Calls that leave the loader, in the order they are made. -/
inductive Event where
  /-- The call `Library::resolve(symbol)`. -/
  | resolve (symbol : String)
  /-- The call `func()` of the entry point at address `entry`. -/
  | invoke (entry : VoidPtr)
  /-- A query of the path-resolution service for the addon `name`. -/
  | locate (name : String)
  /-- An attempt to open the shared object at `path`. -/
  | dlopen (path : String)
deriving DecidableEq, Repr

/-- The interface of `fcitx::Library` (fcitx-utils) over a state `L`, with the native call
of a resolved entry point.
`resolve lib name` is `lib.resolve(name)`: the address found (`nullptr` when the lookup fails)
and the state of the handle afterwards; `error lib` is `lib.error()`;
`call p` is `Library::toFunction<AddonFactory *()>(p)()`. -/
structure Library (L : Type) where
  resolve : L → String → VoidPtr × L
  error : L → String
  call : VoidPtr → AddonFactoryPtr

/-- The function `stringutils::concat`: the arguments joined in order. -/
def stringutils.concat (parts : List String) : String :=
  parts.foldl (fun acc s => acc ++ s) ""

/-- The data members of `AndroidSharedLibraryFactory`. -/
structure AndroidSharedLibraryFactory (L : Type) where
  library_ : L
  factory_ : AddonFactoryPtr
deriving DecidableEq, Repr

/-- The constructor `AndroidSharedLibraryFactory(const AddonInfo &info, Library lib)`. -/
def AndroidSharedLibraryFactory.AndroidSharedLibraryFactory {L : Type} (api : Library L)
    (info : AddonInfo) (lib : L) :
    Except String (fcitx.AndroidSharedLibraryFactory L) × List Event :=
  let v2Name := stringutils.concat [FCITX_ADDON_FACTORY_ENTRY, "_", info.uniqueName]
  -- auto *funcPtr = library_.resolve(v2Name.data());
  let r1 := api.resolve lib v2Name
  let t1 := [Event.resolve v2Name]
  -- if (!funcPtr) funcPtr = library_.resolve(FCITX_ADDON_FACTORY_ENTRY);
  let r2 := if r1.1 = nullptr then api.resolve r1.2 FCITX_ADDON_FACTORY_ENTRY else r1
  let t2 := if r1.1 = nullptr then t1 ++ [Event.resolve FCITX_ADDON_FACTORY_ENTRY] else t1
  -- if (!funcPtr) throw std::runtime_error(library_.error());
  if r2.1 = nullptr then (Except.error (api.error r2.2), t2)
  else
    -- factory_ = func();
    let factory_ := api.call r2.1
    let t3 := t2 ++ [Event.invoke r2.1]
    -- if (!factory_) throw std::runtime_error("Failed to get a factory");
    if factory_ = nullptr then (Except.error "Failed to get a factory", t3)
    else (Except.ok { library_ := r2.2, factory_ := factory_ }, t3)

/-- The member function `factory()`: the pointer returned, the object afterwards (the member
function is not `const`), and the calls made. -/
def AndroidSharedLibraryFactory.factory {L : Type} (self : fcitx.AndroidSharedLibraryFactory L) :
    AddonFactoryPtr × fcitx.AndroidSharedLibraryFactory L × List Event :=
  (self.factory_, self, [])

/-- The member function `factory()` called `n` times in a row on one object: the pointers
returned in order, the object after the last call, and all calls made. -/
def AndroidSharedLibraryFactory.factoryCalls {L : Type} :
    Nat → fcitx.AndroidSharedLibraryFactory L →
      List AddonFactoryPtr × fcitx.AndroidSharedLibraryFactory L × List Event
  | 0, self => ([], self, [])
  | n + 1, self =>
    let first := self.factory
    let rest := factoryCalls n first.2.1
    (first.1 :: rest.1, rest.2.1, first.2.2 ++ rest.2.2)

/-- The type `AndroidLibraryDependency`: for an addon name, the names it depends on. -/
abbrev AndroidLibraryDependency := List (String × List String)

/-- The class `StandardPath` of fcitx-utils as a data member: a helper without state of its
own, whose answers come from the file system (`Environment`). -/
structure StandardPath where
deriving DecidableEq, Repr

/-- Address of the addon manager, `AddonManager *`. -/
abbrev AddonManagerPtr := Nat

/-- The data members of `AndroidSharedLibraryLoader`.  The `std::unordered_map` registry is
an association list read with `List.lookup`. -/
structure AndroidSharedLibraryLoader (L : Type) where
  standardPath_ : StandardPath
  registry_ : List (String × AndroidSharedLibraryFactory L)
  dependency_ : AndroidLibraryDependency
deriving DecidableEq, Repr

/-- The member function `type()`. -/
def AndroidSharedLibraryLoader.type {L : Type} (_self : fcitx.AndroidSharedLibraryLoader L) :
    String :=
  "SharedLibrary"

/-- Modelled from the spec: the constructor `AndroidSharedLibraryLoader(dependency)` is
declared in the header and defined elsewhere.  It stores the dependency set verbatim,
starts with an empty registry and sets up the path-resolution helper. -/
def AndroidSharedLibraryLoader.AndroidSharedLibraryLoader {L : Type}
    (dependency : AndroidLibraryDependency) : fcitx.AndroidSharedLibraryLoader L :=
  { standardPath_ := {}, registry_ := [], dependency_ := dependency }

/-- Modelled from the spec: what `load` sees of the world outside the loader, namely the
external collaborators of the spec's interface section: the path-resolution service
(`candidates name` are the candidate paths for an addon name, `fileExists` tells which are
present), the dynamic loader (`dlopen path` is the opened handle or the native diagnostic)
and the library interface. -/
structure Environment (L : Type) where
  candidates : String → List String
  fileExists : String → Bool
  dlopen : String → Except String L
  api : Library L

/-- Modelled from the spec: the member function `load(info, manager)` is declared in the
header and defined elsewhere.  Steps 1 to 8 of the spec: a registry hit returns the cached
factory pointer at once; on a miss the path is resolved from the unique name (first existing
candidate, else "library not found"), the library is opened (else the native diagnostic),
the factory object is constructed (a failure propagates unchanged) and only then stored
under the unique name.  The result is the pointer or the error, the loader afterwards, and
the calls made. -/
def AndroidSharedLibraryLoader.load {L : Type} (env : Environment L)
    (self : fcitx.AndroidSharedLibraryLoader L) (info : AddonInfo) (_manager : AddonManagerPtr) :
    Except String AddonFactoryPtr × fcitx.AndroidSharedLibraryLoader L × List Event :=
  match self.registry_.lookup info.uniqueName with
  | some cached => (Except.ok cached.factory.1, self, cached.factory.2.2)
  | none =>
    let t1 := [Event.locate info.uniqueName]
    match (env.candidates info.uniqueName).find? env.fileExists with
    | none => (Except.error "library not found", self, t1)
    | some path =>
      let t2 := t1 ++ [Event.dlopen path]
      match env.dlopen path with
      | Except.error msg => (Except.error msg, self, t2)
      | Except.ok lib =>
        match AndroidSharedLibraryFactory.AndroidSharedLibraryFactory env.api info lib with
        | (Except.error msg, t3) => (Except.error msg, self, t2 ++ t3)
        | (Except.ok created, t3) =>
          (Except.ok created.factory.1,
            { self with registry_ := (info.uniqueName, created) :: self.registry_ },
            t2 ++ t3 ++ created.factory.2.2)

/-- A history of `load` requests, each with the environment it runs in: the loader after
the last one. -/
def AndroidSharedLibraryLoader.loads {L : Type} :
    fcitx.AndroidSharedLibraryLoader L → List (Environment L × AddonInfo × AddonManagerPtr) →
      fcitx.AndroidSharedLibraryLoader L
  | self, [] => self
  | self, (env, info, manager) :: rest => loads (load env self info manager).2.1 rest

/-! ## A concrete library for the examples -/

/-- A shared object in the examples: its exported symbols with their addresses, and the text
of the last lookup failure. -/
structure SharedObject where
  symbols : List (String × VoidPtr)
  error_ : String
deriving DecidableEq, Repr

/-- The library interface over `SharedObject`: a lookup that fails returns `nullptr` and
records a diagnostic; the entry point at an address returns what `entries` lists for it. -/
def sharedObjectApi (entries : List (VoidPtr × AddonFactoryPtr)) : Library SharedObject where
  resolve lib name :=
    match lib.symbols.lookup name with
    | some p => (p, lib)
    | none => (nullptr, { lib with error_ := "undefined symbol: " ++ name })
  error lib := lib.error_
  call p := (entries.lookup p).getD nullptr

/-- An environment with one file, `path`, holding the shared object `lib`. -/
def oneFile (path : String) (lib : SharedObject) (entries : List (VoidPtr × AddonFactoryPtr)) :
    Environment SharedObject where
  candidates name := ["/data/lib" ++ name ++ ".so", "/system/lib" ++ name ++ ".so"]
  fileExists p := p == path
  dlopen p := if p = path then Except.ok lib else Except.error ("cannot open " ++ p)
  api := sharedObjectApi entries

/-- The shared object of the addon `pinyin`, exporting its versioned entry point. -/
def pinyinLibrary : SharedObject :=
  { symbols := [("fcitx_addon_factory_instance_pinyin", 100)], error_ := "" }

/-- A shared object for `pinyin` that exports neither entry symbol. -/
def pinyinBroken : SharedObject :=
  { symbols := [("JNI_OnLoad", 100)], error_ := "" }

/-! ## Auxiliary facts -/

/-- The versioned symbol name is the entry-point prefix, an underscore, and the unique name. -/
theorem v2Name_eq (n : String) :
    stringutils.concat [FCITX_ADDON_FACTORY_ENTRY, "_", n] =
      "fcitx_addon_factory_instance_" ++ n := by
  have h : ("" ++ FCITX_ADDON_FACTORY_ENTRY) ++ "_" = "fcitx_addon_factory_instance_" := by decide
  simp only [stringutils.concat, List.foldl_cons, List.foldl_nil, h]

/-- The versioned symbol name is never the bare entry-point name. -/
theorem v2Name_ne_entry (n : String) :
    "fcitx_addon_factory_instance_" ++ n ≠ "fcitx_addon_factory_instance" := by
  intro h
  have hl := congrArg String.length h
  rw [String.length_append] at hl
  have h1 : ("fcitx_addon_factory_instance_" : String).length = 29 := by decide
  have h2 : ("fcitx_addon_factory_instance" : String).length = 28 := by decide
  omega

/-- The constructor when the versioned symbol resolves: one lookup, one invocation. -/
theorem ctor_versioned {L : Type} (api : Library L) (n : String) (lib : L)
    (h : (api.resolve lib ("fcitx_addon_factory_instance_" ++ n)).1 ≠ nullptr) :
    AndroidSharedLibraryFactory.AndroidSharedLibraryFactory api ⟨n⟩ lib =
      if api.call (api.resolve lib ("fcitx_addon_factory_instance_" ++ n)).1 = nullptr then
        (Except.error "Failed to get a factory",
          [Event.resolve ("fcitx_addon_factory_instance_" ++ n),
            Event.invoke (api.resolve lib ("fcitx_addon_factory_instance_" ++ n)).1])
      else
        (Except.ok
          { library_ := (api.resolve lib ("fcitx_addon_factory_instance_" ++ n)).2,
            factory_ := api.call (api.resolve lib ("fcitx_addon_factory_instance_" ++ n)).1 },
          [Event.resolve ("fcitx_addon_factory_instance_" ++ n),
            Event.invoke (api.resolve lib ("fcitx_addon_factory_instance_" ++ n)).1]) := by
  simp only [AndroidSharedLibraryFactory.AndroidSharedLibraryFactory, v2Name_eq, if_neg h]
  split <;> simp

/-- The constructor when only the fallback lookup resolves: two lookups, one invocation. -/
theorem ctor_fallback {L : Type} (api : Library L) (n : String) (lib : L)
    (h1 : (api.resolve lib ("fcitx_addon_factory_instance_" ++ n)).1 = nullptr)
    (h2 : (api.resolve (api.resolve lib ("fcitx_addon_factory_instance_" ++ n)).2
      "fcitx_addon_factory_instance").1 ≠ nullptr) :
    AndroidSharedLibraryFactory.AndroidSharedLibraryFactory api ⟨n⟩ lib =
      if api.call (api.resolve (api.resolve lib ("fcitx_addon_factory_instance_" ++ n)).2
          "fcitx_addon_factory_instance").1 = nullptr then
        (Except.error "Failed to get a factory",
          [Event.resolve ("fcitx_addon_factory_instance_" ++ n),
            Event.resolve "fcitx_addon_factory_instance",
            Event.invoke (api.resolve (api.resolve lib ("fcitx_addon_factory_instance_" ++ n)).2
              "fcitx_addon_factory_instance").1])
      else
        (Except.ok
          { library_ := (api.resolve (api.resolve lib ("fcitx_addon_factory_instance_" ++ n)).2
              "fcitx_addon_factory_instance").2,
            factory_ := api.call (api.resolve
              (api.resolve lib ("fcitx_addon_factory_instance_" ++ n)).2
              "fcitx_addon_factory_instance").1 },
          [Event.resolve ("fcitx_addon_factory_instance_" ++ n),
            Event.resolve "fcitx_addon_factory_instance",
            Event.invoke (api.resolve (api.resolve lib ("fcitx_addon_factory_instance_" ++ n)).2
              "fcitx_addon_factory_instance").1]) := by
  simp only [AndroidSharedLibraryFactory.AndroidSharedLibraryFactory, v2Name_eq, if_pos h1]
  simp only [FCITX_ADDON_FACTORY_ENTRY, if_neg h2]
  split <;> simp

/-- The constructor when neither lookup resolves: two lookups, then the library's error. -/
theorem ctor_neither {L : Type} (api : Library L) (n : String) (lib : L)
    (h1 : (api.resolve lib ("fcitx_addon_factory_instance_" ++ n)).1 = nullptr)
    (h2 : (api.resolve (api.resolve lib ("fcitx_addon_factory_instance_" ++ n)).2
      "fcitx_addon_factory_instance").1 = nullptr) :
    AndroidSharedLibraryFactory.AndroidSharedLibraryFactory api ⟨n⟩ lib =
      (Except.error (api.error (api.resolve
          (api.resolve lib ("fcitx_addon_factory_instance_" ++ n)).2
          "fcitx_addon_factory_instance").2),
        [Event.resolve ("fcitx_addon_factory_instance_" ++ n),
          Event.resolve "fcitx_addon_factory_instance"]) := by
  simp only [AndroidSharedLibraryFactory.AndroidSharedLibraryFactory, v2Name_eq, if_pos h1]
  simp only [FCITX_ADDON_FACTORY_ENTRY, if_pos h2, List.singleton_append, List.cons_append,
    List.nil_append]

/-- A constructed factory object holds a non-null pointer, the value the entry point invoked
last returned, and that entry point is the only one invoked. -/
theorem ctor_ok_inv {L : Type} (api : Library L) (info : AddonInfo) (lib : L)
    (r : AndroidSharedLibraryFactory L) (tr : List Event)
    (h : AndroidSharedLibraryFactory.AndroidSharedLibraryFactory api info lib = (Except.ok r, tr)) :
    r.factory_ ≠ nullptr ∧
      ∃ p, tr.getLast? = some (Event.invoke p) ∧ (∀ q, Event.invoke q ∈ tr → q = p) ∧
        r.factory_ = api.call p := by
  obtain ⟨n⟩ := info
  by_cases h1 : (api.resolve lib ("fcitx_addon_factory_instance_" ++ n)).1 = nullptr
  · by_cases h2 : (api.resolve (api.resolve lib ("fcitx_addon_factory_instance_" ++ n)).2
        "fcitx_addon_factory_instance").1 = nullptr
    · rw [ctor_neither api n lib h1 h2] at h
      simp at h
    · rw [ctor_fallback api n lib h1 h2] at h
      split at h
      · simp at h
      · next hc =>
        simp only [Prod.mk.injEq, Except.ok.injEq] at h
        obtain ⟨hr, ht⟩ := h
        subst hr; subst ht
        refine ⟨hc, _, rfl, ?_, rfl⟩
        intro q hq
        simpa using hq
  · rw [ctor_versioned api n lib h1] at h
    split at h
    · simp at h
    · next hc =>
      simp only [Prod.mk.injEq, Except.ok.injEq] at h
      obtain ⟨hr, ht⟩ := h
      subst hr; subst ht
      refine ⟨hc, _, rfl, ?_, rfl⟩
      intro q hq
      simpa using hq

/-! ## The factory object (`AndroidSharedLibraryFactory`) -/

/-- C1: when the versioned symbol `"fcitx_addon_factory_instance_" ++ n` resolves to an entry
point `p` that returns a non-null factory `f`, construction succeeds, `factory()` returns
exactly `f`, and the first call made is the lookup of exactly that name.  Nothing is assumed
of the bare symbol, so this covers every library in which it does not resolve. -/
theorem versioned_symbol_yields_its_factory {L : Type} (api : Library L) (n : String) (lib : L)
    (p : VoidPtr) (f : AddonFactoryPtr)
    (hresolve : (api.resolve lib ("fcitx_addon_factory_instance_" ++ n)).1 = p)
    (hp : p ≠ nullptr) (hcall : api.call p = f) (hf : f ≠ nullptr) :
    ∃ r rest,
      AndroidSharedLibraryFactory.AndroidSharedLibraryFactory api ⟨n⟩ lib =
        (Except.ok r, Event.resolve ("fcitx_addon_factory_instance_" ++ n) :: rest) ∧
      r.factory.1 = f := by
  subst hresolve; subst hcall
  rw [ctor_versioned api n lib hp, if_neg hf]
  exact ⟨_, _, rfl, rfl⟩

/-- C1 at a library exporting only `fcitx_addon_factory_instance_pinyin`. -/
theorem versioned_symbol_yields_its_factory_witness :
    ∃ r rest,
      AndroidSharedLibraryFactory.AndroidSharedLibraryFactory (sharedObjectApi [(100, 7)])
          ⟨"pinyin"⟩ ⟨[("fcitx_addon_factory_instance_pinyin", 100)], ""⟩ =
        (Except.ok r, Event.resolve ("fcitx_addon_factory_instance_" ++ "pinyin") :: rest) ∧
      r.factory.1 = 7 :=
  versioned_symbol_yields_its_factory (sharedObjectApi [(100, 7)]) "pinyin"
    ⟨[("fcitx_addon_factory_instance_pinyin", 100)], ""⟩ 100 7 (by rfl) (by decide) (by rfl)
    (by decide)

/-- C2: when the versioned symbol does not resolve and the bare symbol
`fcitx_addon_factory_instance`, looked up next on the same handle, resolves to an entry point
`q` that returns a non-null factory `g`, construction succeeds through the fallback lookup
(versioned lookup, bare lookup, one invocation of `q`) and `factory()` returns exactly `g`. -/
theorem legacy_symbol_fallback {L : Type} (api : Library L) (n : String) (lib : L)
    (q : VoidPtr) (g : AddonFactoryPtr)
    (hversioned : (api.resolve lib ("fcitx_addon_factory_instance_" ++ n)).1 = nullptr)
    (hbare : (api.resolve (api.resolve lib ("fcitx_addon_factory_instance_" ++ n)).2
      "fcitx_addon_factory_instance").1 = q)
    (hq : q ≠ nullptr) (hcall : api.call q = g) (hg : g ≠ nullptr) :
    ∃ r,
      AndroidSharedLibraryFactory.AndroidSharedLibraryFactory api ⟨n⟩ lib =
        (Except.ok r,
          [Event.resolve ("fcitx_addon_factory_instance_" ++ n),
            Event.resolve "fcitx_addon_factory_instance", Event.invoke q]) ∧
      r.factory.1 = g := by
  subst hbare; subst hcall
  rw [ctor_fallback api n lib hversioned hq, if_neg hg]
  exact ⟨_, rfl, rfl⟩

/-- C2 at a library exporting only the bare `fcitx_addon_factory_instance`. -/
theorem legacy_symbol_fallback_witness :
    ∃ r,
      AndroidSharedLibraryFactory.AndroidSharedLibraryFactory (sharedObjectApi [(200, 9)])
          ⟨"pinyin"⟩ ⟨[("fcitx_addon_factory_instance", 200)], ""⟩ =
        (Except.ok r,
          [Event.resolve ("fcitx_addon_factory_instance_" ++ "pinyin"),
            Event.resolve "fcitx_addon_factory_instance", Event.invoke 200]) ∧
      r.factory.1 = 9 :=
  legacy_symbol_fallback (sharedObjectApi [(200, 9)]) "pinyin"
    ⟨[("fcitx_addon_factory_instance", 200)], ""⟩ 200 9 (by rfl) (by rfl) (by decide) (by rfl)
    (by decide)

/-- C3: when neither the versioned nor the bare symbol resolves, construction fails with the
error whose message is `library_.error()` read after the two failed lookups, and the calls
made are those two lookups only: no entry point is invoked. -/
theorem neither_symbol_reports_library_error {L : Type} (api : Library L) (n : String) (lib : L)
    (hversioned : (api.resolve lib ("fcitx_addon_factory_instance_" ++ n)).1 = nullptr)
    (hbare : (api.resolve (api.resolve lib ("fcitx_addon_factory_instance_" ++ n)).2
      "fcitx_addon_factory_instance").1 = nullptr) :
    AndroidSharedLibraryFactory.AndroidSharedLibraryFactory api ⟨n⟩ lib =
        (Except.error (api.error (api.resolve
            (api.resolve lib ("fcitx_addon_factory_instance_" ++ n)).2
            "fcitx_addon_factory_instance").2),
          [Event.resolve ("fcitx_addon_factory_instance_" ++ n),
            Event.resolve "fcitx_addon_factory_instance"]) ∧
      ∀ p, Event.invoke p ∉
        (AndroidSharedLibraryFactory.AndroidSharedLibraryFactory api ⟨n⟩ lib).2 := by
  rw [ctor_neither api n lib hversioned hbare]
  refine ⟨rfl, ?_⟩
  intro p hmem
  simp at hmem

/-- C3 at a library exporting an unrelated symbol only: the message is the diagnostic of
the last failed lookup. -/
theorem neither_symbol_reports_library_error_witness :
    AndroidSharedLibraryFactory.AndroidSharedLibraryFactory (sharedObjectApi [(100, 7)])
        ⟨"pinyin"⟩ ⟨[("JNI_OnLoad", 100)], ""⟩ =
      (Except.error "undefined symbol: fcitx_addon_factory_instance",
        [Event.resolve "fcitx_addon_factory_instance_pinyin",
          Event.resolve "fcitx_addon_factory_instance"]) :=
  (neither_symbol_reports_library_error (sharedObjectApi [(100, 7)]) "pinyin"
    ⟨[("JNI_OnLoad", 100)], ""⟩ (by rfl) (by rfl)).1

/-- C4, as stated, fails: with a versioned entry point that returns null, the error thrown
carries the message "Failed to get a factory", not "factory construction returned nothing". -/
theorem null_factory_message_counterexample :
    (AndroidSharedLibraryFactory.AndroidSharedLibraryFactory (sharedObjectApi [(100, 0), (200, 9)])
        ⟨"pinyin"⟩
        ⟨[("fcitx_addon_factory_instance_pinyin", 100),
          ("fcitx_addon_factory_instance", 200)], ""⟩).1 =
        Except.error "Failed to get a factory" ∧
      (AndroidSharedLibraryFactory.AndroidSharedLibraryFactory
        (sharedObjectApi [(100, 0), (200, 9)]) ⟨"pinyin"⟩
        ⟨[("fcitx_addon_factory_instance_pinyin", 100),
          ("fcitx_addon_factory_instance", 200)], ""⟩).1 ≠
        Except.error "factory construction returned nothing" := by
  refine ⟨by rfl, ?_⟩
  have h : (AndroidSharedLibraryFactory.AndroidSharedLibraryFactory
      (sharedObjectApi [(100, 0), (200, 9)]) ⟨"pinyin"⟩
      ⟨[("fcitx_addon_factory_instance_pinyin", 100),
        ("fcitx_addon_factory_instance", 200)], ""⟩).1 =
      Except.error "Failed to get a factory" := by rfl
  rw [h]
  intro hne
  have hs : ("Failed to get a factory" : String) = "factory construction returned nothing" :=
    Except.error.inj hne
  exact absurd hs (by decide)

/-- C4, amended: if the entry point that is invoked (the versioned one when it resolves,
otherwise the bare one) returns a null factory, construction fails with the error
"Failed to get a factory" and yields no factory object.  Nothing is assumed of the other
symbol: when the versioned entry point returned null the bare symbol is not even looked up,
and in either case exactly one entry point is invoked, once. -/
theorem null_factory_fails {L : Type} (api : Library L) (n : String) (lib : L)
    (hnull :
      ((api.resolve lib ("fcitx_addon_factory_instance_" ++ n)).1 ≠ nullptr ∧
        api.call (api.resolve lib ("fcitx_addon_factory_instance_" ++ n)).1 = nullptr) ∨
      ((api.resolve lib ("fcitx_addon_factory_instance_" ++ n)).1 = nullptr ∧
        (api.resolve (api.resolve lib ("fcitx_addon_factory_instance_" ++ n)).2
          "fcitx_addon_factory_instance").1 ≠ nullptr ∧
        api.call (api.resolve (api.resolve lib ("fcitx_addon_factory_instance_" ++ n)).2
          "fcitx_addon_factory_instance").1 = nullptr)) :
    (AndroidSharedLibraryFactory.AndroidSharedLibraryFactory api ⟨n⟩ lib).1 =
        Except.error "Failed to get a factory" ∧
      (∀ r, (AndroidSharedLibraryFactory.AndroidSharedLibraryFactory api ⟨n⟩ lib).1 ≠
        Except.ok r) ∧
      ((api.resolve lib ("fcitx_addon_factory_instance_" ++ n)).1 ≠ nullptr →
        (AndroidSharedLibraryFactory.AndroidSharedLibraryFactory api ⟨n⟩ lib).2 =
          [Event.resolve ("fcitx_addon_factory_instance_" ++ n),
            Event.invoke (api.resolve lib ("fcitx_addon_factory_instance_" ++ n)).1]) ∧
      ((api.resolve lib ("fcitx_addon_factory_instance_" ++ n)).1 = nullptr →
        (AndroidSharedLibraryFactory.AndroidSharedLibraryFactory api ⟨n⟩ lib).2 =
          [Event.resolve ("fcitx_addon_factory_instance_" ++ n),
            Event.resolve "fcitx_addon_factory_instance",
            Event.invoke (api.resolve
              (api.resolve lib ("fcitx_addon_factory_instance_" ++ n)).2
              "fcitx_addon_factory_instance").1]) := by
  rcases hnull with ⟨h1, hc⟩ | ⟨h1, h2, hc⟩
  · rw [ctor_versioned api n lib h1, if_pos hc]
    refine ⟨rfl, ?_, fun _ => rfl, fun h => absurd h h1⟩
    intro r hr
    simp at hr
  · rw [ctor_fallback api n lib h1 h2, if_pos hc]
    refine ⟨rfl, ?_, fun h => absurd h1 h, fun _ => rfl⟩
    intro r hr
    simp at hr

/-- C4, amended, at a library whose versioned entry point returns null while its bare entry
point would have returned the factory `9`: construction fails and the bare symbol is never
looked up. -/
theorem null_factory_fails_witness :
    (AndroidSharedLibraryFactory.AndroidSharedLibraryFactory (sharedObjectApi [(100, 0), (200, 9)])
        ⟨"pinyin"⟩
        ⟨[("fcitx_addon_factory_instance_pinyin", 100),
          ("fcitx_addon_factory_instance", 200)], ""⟩).1 =
        Except.error "Failed to get a factory" ∧
      (AndroidSharedLibraryFactory.AndroidSharedLibraryFactory
        (sharedObjectApi [(100, 0), (200, 9)]) ⟨"pinyin"⟩
        ⟨[("fcitx_addon_factory_instance_pinyin", 100),
          ("fcitx_addon_factory_instance", 200)], ""⟩).2 =
        [Event.resolve "fcitx_addon_factory_instance_pinyin", Event.invoke 100] :=
  have h := null_factory_fails (sharedObjectApi [(100, 0), (200, 9)]) "pinyin"
    ⟨[("fcitx_addon_factory_instance_pinyin", 100), ("fcitx_addon_factory_instance", 200)], ""⟩
    (Or.inl ⟨by decide, by rfl⟩)
  ⟨h.1, h.2.2.1 (by decide)⟩

/-- C5: whenever construction completes without an error, for any addon descriptor and any
library, the pointer returned by `factory()` is not null. -/
theorem constructed_factory_nonnull {L : Type} (api : Library L) (info : AddonInfo) (lib : L)
    (r : AndroidSharedLibraryFactory L) (tr : List Event)
    (hok : AndroidSharedLibraryFactory.AndroidSharedLibraryFactory api info lib =
      (Except.ok r, tr)) :
    r.factory.1 ≠ nullptr :=
  (ctor_ok_inv api info lib r tr hok).1

/-- C5 at a library reached through the fallback lookup. -/
theorem constructed_factory_nonnull_witness :
    (AndroidSharedLibraryFactory.factory
      (⟨⟨[("fcitx_addon_factory_instance", 200)],
        "undefined symbol: fcitx_addon_factory_instance_pinyin"⟩, 9⟩ :
        AndroidSharedLibraryFactory SharedObject)).1 ≠ nullptr :=
  constructed_factory_nonnull (sharedObjectApi [(200, 9)]) ⟨"pinyin"⟩
    ⟨[("fcitx_addon_factory_instance", 200)], ""⟩ _
    [Event.resolve "fcitx_addon_factory_instance_pinyin",
      Event.resolve "fcitx_addon_factory_instance", Event.invoke 200] (by rfl)

/-- C9: for a successfully constructed factory object, `factory()` returns the pointer the
entry point returned during construction (the one invocation in the construction trace),
leaves the object unchanged and makes no call (no symbol lookup, no invocation); any number
of calls in a row return that same pointer with the same absence of effects. -/
theorem factory_returns_cached_pointer {L : Type} (api : Library L) (info : AddonInfo) (lib : L)
    (r : AndroidSharedLibraryFactory L) (tr : List Event)
    (hok : AndroidSharedLibraryFactory.AndroidSharedLibraryFactory api info lib =
      (Except.ok r, tr)) :
    (∃ p, tr.getLast? = some (Event.invoke p) ∧ (∀ q, Event.invoke q ∈ tr → q = p) ∧
        r.factory.1 = api.call p) ∧
      r.factory.2.1 = r ∧ r.factory.2.2 = [] ∧
      ∀ k, r.factoryCalls k = (List.replicate k r.factory.1, r, []) := by
  refine ⟨(ctor_ok_inv api info lib r tr hok).2, rfl, rfl, ?_⟩
  intro k
  induction k with
  | zero => rfl
  | succ k ih =>
    simp only [AndroidSharedLibraryFactory.factoryCalls, AndroidSharedLibraryFactory.factory,
      List.replicate_succ, List.nil_append] at ih ⊢
    rw [ih]

/-- C9 at a library exporting the versioned symbol: three calls in a row. -/
theorem factory_returns_cached_pointer_witness :
    AndroidSharedLibraryFactory.factoryCalls 3
        (⟨⟨[("fcitx_addon_factory_instance_pinyin", 100)], ""⟩, 7⟩ :
          AndroidSharedLibraryFactory SharedObject) =
      ([7, 7, 7], ⟨⟨[("fcitx_addon_factory_instance_pinyin", 100)], ""⟩, 7⟩, []) :=
  (factory_returns_cached_pointer (sharedObjectApi [(100, 7)]) ⟨"pinyin"⟩
    ⟨[("fcitx_addon_factory_instance_pinyin", 100)], ""⟩ _
    [Event.resolve "fcitx_addon_factory_instance_pinyin", Event.invoke 100] (by rfl)).2.2.2 3

/-- C10: versioned-first precedence.  When the versioned symbol of addon `n` resolves to
`p`, construction makes exactly two calls, the lookup of the versioned name and one
invocation of `p`: the bare symbol `fcitx_addon_factory_instance` is not looked up and no
other entry point is invoked, whatever the library exports under the bare name; and when `p`
returns a non-null factory, `factory()` is that value.  Hence a second addon `m` served from
the same library state through its own versioned symbol `p2` obtains the factory of `p2`. -/
theorem versioned_symbol_takes_precedence {L : Type} (api : Library L) (n m : String) (lib : L)
    (p p2 : VoidPtr)
    (hn : (api.resolve lib ("fcitx_addon_factory_instance_" ++ n)).1 = p) (hp : p ≠ nullptr)
    (hm : (api.resolve lib ("fcitx_addon_factory_instance_" ++ m)).1 = p2) (hp2 : p2 ≠ nullptr) :
    (AndroidSharedLibraryFactory.AndroidSharedLibraryFactory api ⟨n⟩ lib).2 =
        [Event.resolve ("fcitx_addon_factory_instance_" ++ n), Event.invoke p] ∧
      Event.resolve "fcitx_addon_factory_instance" ∉
        (AndroidSharedLibraryFactory.AndroidSharedLibraryFactory api ⟨n⟩ lib).2 ∧
      (∀ q, q ≠ p → Event.invoke q ∉
        (AndroidSharedLibraryFactory.AndroidSharedLibraryFactory api ⟨n⟩ lib).2) ∧
      (api.call p ≠ nullptr →
        ∃ r, (AndroidSharedLibraryFactory.AndroidSharedLibraryFactory api ⟨n⟩ lib).1 =
          Except.ok r ∧ r.factory.1 = api.call p) ∧
      (api.call p2 ≠ nullptr →
        ∃ r2, (AndroidSharedLibraryFactory.AndroidSharedLibraryFactory api ⟨m⟩ lib).1 =
          Except.ok r2 ∧ r2.factory.1 = api.call p2) := by
  subst hn; subst hm
  have htrace : (AndroidSharedLibraryFactory.AndroidSharedLibraryFactory api ⟨n⟩ lib).2 =
      [Event.resolve ("fcitx_addon_factory_instance_" ++ n),
        Event.invoke (api.resolve lib ("fcitx_addon_factory_instance_" ++ n)).1] := by
    rw [ctor_versioned api n lib hp]
    split <;> rfl
  refine ⟨htrace, ?_, ?_, ?_, ?_⟩
  · rw [htrace]
    have hne := v2Name_ne_entry n
    intro hmem
    simp only [List.mem_cons, Event.resolve.injEq, List.mem_singleton, reduceCtorEq,
      List.not_mem_nil, or_false] at hmem
    exact hne hmem.symm
  · intro q hq
    rw [htrace]
    intro hmem
    simp only [List.mem_cons, Event.invoke.injEq, List.mem_singleton, reduceCtorEq,
      List.not_mem_nil, or_false, false_or] at hmem
    exact hq hmem
  · intro hc
    rw [ctor_versioned api n lib hp, if_neg hc]
    exact ⟨_, rfl, rfl⟩
  · intro hc
    rw [ctor_versioned api m lib hp2, if_neg hc]
    exact ⟨_, rfl, rfl⟩

/-- C10 at one binary exporting the versioned symbols of `pinyin` and `table` and the bare
symbol: `pinyin` gets the factory `7` with the bare symbol untouched, `table` gets `8`, and
neither gets the factory `9` behind the bare symbol. -/
theorem versioned_symbol_takes_precedence_witness :
    (AndroidSharedLibraryFactory.AndroidSharedLibraryFactory
        (sharedObjectApi [(100, 7), (150, 8), (200, 9)]) ⟨"pinyin"⟩
        ⟨[("fcitx_addon_factory_instance_pinyin", 100),
          ("fcitx_addon_factory_instance_table", 150),
          ("fcitx_addon_factory_instance", 200)], ""⟩).2 =
        [Event.resolve ("fcitx_addon_factory_instance_" ++ "pinyin"), Event.invoke 100] ∧
      (∃ r, (AndroidSharedLibraryFactory.AndroidSharedLibraryFactory
          (sharedObjectApi [(100, 7), (150, 8), (200, 9)]) ⟨"pinyin"⟩
          ⟨[("fcitx_addon_factory_instance_pinyin", 100),
            ("fcitx_addon_factory_instance_table", 150),
            ("fcitx_addon_factory_instance", 200)], ""⟩).1 = Except.ok r ∧
        r.factory.1 = (sharedObjectApi [(100, 7), (150, 8), (200, 9)]).call 100) ∧
      (∃ r2, (AndroidSharedLibraryFactory.AndroidSharedLibraryFactory
          (sharedObjectApi [(100, 7), (150, 8), (200, 9)]) ⟨"table"⟩
          ⟨[("fcitx_addon_factory_instance_pinyin", 100),
            ("fcitx_addon_factory_instance_table", 150),
            ("fcitx_addon_factory_instance", 200)], ""⟩).1 = Except.ok r2 ∧
        r2.factory.1 = (sharedObjectApi [(100, 7), (150, 8), (200, 9)]).call 150) :=
  have h := versioned_symbol_takes_precedence (sharedObjectApi [(100, 7), (150, 8), (200, 9)])
    "pinyin" "table"
    ⟨[("fcitx_addon_factory_instance_pinyin", 100), ("fcitx_addon_factory_instance_table", 150),
      ("fcitx_addon_factory_instance", 200)], ""⟩ 100 150 (by rfl) (by decide) (by rfl)
    (by decide)
  ⟨h.1, h.2.2.2.1 (by decide), h.2.2.2.2 (by decide)⟩

/-! ## The loader (`AndroidSharedLibraryLoader`) -/

/-- C6: if a load of an addon name succeeds, a second load of that name on the loader it
leaves behind returns the identical factory pointer, leaves the loader (and so the registry)
unchanged, and makes no call at all: no path resolution, no opening of a library, no symbol
lookup, no entry-point invocation.  This holds in whatever environment, and with whatever
manager, the second load runs. -/
theorem second_load_hits_registry {L : Type} (env1 env2 : Environment L)
    (self s1 : AndroidSharedLibraryLoader L) (info : AddonInfo) (m1 m2 : AddonManagerPtr)
    (f : AddonFactoryPtr) (t1 : List Event)
    (hfirst : AndroidSharedLibraryLoader.load env1 self info m1 = (Except.ok f, s1, t1)) :
    AndroidSharedLibraryLoader.load env2 s1 info m2 = (Except.ok f, s1, []) := by
  unfold AndroidSharedLibraryLoader.load at hfirst
  split at hfirst
  · next cached hhit =>
    simp only [Prod.mk.injEq, Except.ok.injEq] at hfirst
    obtain ⟨hf, hs, _⟩ := hfirst
    subst hf; subst hs
    simp only [AndroidSharedLibraryLoader.load, hhit]
    rfl
  · split at hfirst
    · simp at hfirst
    · split at hfirst
      · simp at hfirst
      · split at hfirst
        · simp at hfirst
        · next created t3 hctor =>
          simp only [Prod.mk.injEq, Except.ok.injEq] at hfirst
          obtain ⟨hf, hs, _⟩ := hfirst
          subst hf; subst hs
          simp only [AndroidSharedLibraryLoader.load, List.lookup_cons, beq_self_eq_true]
          rfl

/-- C6 on a fresh loader: `pinyin` is loaded, then requested again after its file is gone. -/
theorem second_load_hits_registry_witness :
    AndroidSharedLibraryLoader.load (oneFile "/nowhere" pinyinBroken [])
        { standardPath_ := {}, registry_ := [("pinyin", ⟨pinyinLibrary, 7⟩)], dependency_ := [] }
        ⟨"pinyin"⟩ 1 =
      (Except.ok 7,
        { standardPath_ := {}, registry_ := [("pinyin", ⟨pinyinLibrary, 7⟩)], dependency_ := [] },
        []) :=
  second_load_hits_registry (oneFile "/data/libpinyin.so" pinyinLibrary [(100, 7)])
    (oneFile "/nowhere" pinyinBroken [])
    (AndroidSharedLibraryLoader.AndroidSharedLibraryLoader []) _ ⟨"pinyin"⟩ 0 1 7
    [Event.locate "pinyin", Event.dlopen "/data/libpinyin.so",
      Event.resolve "fcitx_addon_factory_instance_pinyin", Event.invoke 100] (by rfl)

/-- C7, as stated, fails for some loader states: after `pinyin` has been loaded once, a load
of `pinyin` while its file holds a library exporting neither entry symbol does not fail; it
returns the cached pointer and never reaches the library. -/
theorem failed_load_every_state_counterexample :
    ((oneFile "/data/libpinyin.so" pinyinBroken []).candidates "pinyin").find?
        (oneFile "/data/libpinyin.so" pinyinBroken []).fileExists = some "/data/libpinyin.so" ∧
      (oneFile "/data/libpinyin.so" pinyinBroken []).dlopen "/data/libpinyin.so" =
        Except.ok pinyinBroken ∧
      ((sharedObjectApi []).resolve pinyinBroken "fcitx_addon_factory_instance_pinyin").1 =
        nullptr ∧
      ((sharedObjectApi []).resolve
        ((sharedObjectApi []).resolve pinyinBroken "fcitx_addon_factory_instance_pinyin").2
        "fcitx_addon_factory_instance").1 = nullptr ∧
      AndroidSharedLibraryLoader.load (oneFile "/data/libpinyin.so" pinyinBroken [])
        (AndroidSharedLibraryLoader.load (oneFile "/data/libpinyin.so" pinyinLibrary [(100, 7)])
          (AndroidSharedLibraryLoader.AndroidSharedLibraryLoader []) ⟨"pinyin"⟩ 0).2.1
        ⟨"pinyin"⟩ 0 =
        (Except.ok 7,
          { standardPath_ := {}, registry_ := [("pinyin", ⟨pinyinLibrary, 7⟩)],
            dependency_ := [] },
          []) := by
  refine ⟨by rfl, by rfl, by rfl, by rfl, by rfl⟩

/-- C7, amended: for a loader whose registry holds no entry for the name, and a library for
that name that is found, opens, and exposes neither entry symbol, `load` fails with the
library's diagnostic after the two failed lookups and leaves the loader, registry included,
as it was.  A following load of the same name, in an environment whose library exposes a
valid entry symbol (versioned, or bare as the fallback, returning a non-null factory), runs
the whole sequence again (path resolution, open, construction) and succeeds, storing the
new factory object under the name. -/
theorem failed_load_is_atomic_and_retried {L : Type} (env env2 : Environment L)
    (self : AndroidSharedLibraryLoader L) (n : String) (m m2 : AddonManagerPtr)
    (path path2 : String) (lib lib2 : L)
    (hmiss : self.registry_.lookup n = none)
    (hpath : (env.candidates n).find? env.fileExists = some path)
    (hopen : env.dlopen path = Except.ok lib)
    (hversioned : (env.api.resolve lib ("fcitx_addon_factory_instance_" ++ n)).1 = nullptr)
    (hbare : (env.api.resolve (env.api.resolve lib ("fcitx_addon_factory_instance_" ++ n)).2
      "fcitx_addon_factory_instance").1 = nullptr)
    (hpath2 : (env2.candidates n).find? env2.fileExists = some path2)
    (hopen2 : env2.dlopen path2 = Except.ok lib2)
    (hvalid :
      ((env2.api.resolve lib2 ("fcitx_addon_factory_instance_" ++ n)).1 ≠ nullptr ∧
        env2.api.call (env2.api.resolve lib2 ("fcitx_addon_factory_instance_" ++ n)).1 ≠
          nullptr) ∨
      ((env2.api.resolve lib2 ("fcitx_addon_factory_instance_" ++ n)).1 = nullptr ∧
        (env2.api.resolve (env2.api.resolve lib2 ("fcitx_addon_factory_instance_" ++ n)).2
          "fcitx_addon_factory_instance").1 ≠ nullptr ∧
        env2.api.call (env2.api.resolve
          (env2.api.resolve lib2 ("fcitx_addon_factory_instance_" ++ n)).2
          "fcitx_addon_factory_instance").1 ≠ nullptr)) :
    AndroidSharedLibraryLoader.load env self ⟨n⟩ m =
        (Except.error (env.api.error (env.api.resolve
            (env.api.resolve lib ("fcitx_addon_factory_instance_" ++ n)).2
            "fcitx_addon_factory_instance").2),
          self,
          [Event.locate n, Event.dlopen path,
            Event.resolve ("fcitx_addon_factory_instance_" ++ n),
            Event.resolve "fcitx_addon_factory_instance"]) ∧
      (AndroidSharedLibraryLoader.load env self ⟨n⟩ m).2.1.registry_ = self.registry_ ∧
      ∃ r t,
        AndroidSharedLibraryFactory.AndroidSharedLibraryFactory env2.api ⟨n⟩ lib2 =
          (Except.ok r, t) ∧
        AndroidSharedLibraryLoader.load env2
            (AndroidSharedLibraryLoader.load env self ⟨n⟩ m).2.1 ⟨n⟩ m2 =
          (Except.ok r.factory.1, { self with registry_ := (n, r) :: self.registry_ },
            [Event.locate n, Event.dlopen path2] ++ t) := by
  have hfail : AndroidSharedLibraryLoader.load env self ⟨n⟩ m =
      (Except.error (env.api.error (env.api.resolve
          (env.api.resolve lib ("fcitx_addon_factory_instance_" ++ n)).2
          "fcitx_addon_factory_instance").2),
        self,
        [Event.locate n, Event.dlopen path,
          Event.resolve ("fcitx_addon_factory_instance_" ++ n),
          Event.resolve "fcitx_addon_factory_instance"]) := by
    simp only [AndroidSharedLibraryLoader.load, hmiss, hpath, hopen,
      ctor_neither env.api n lib hversioned hbare]
    rfl
  refine ⟨hfail, by rw [hfail], ?_⟩
  rw [hfail]
  have hctor : ∃ r t, AndroidSharedLibraryFactory.AndroidSharedLibraryFactory env2.api ⟨n⟩ lib2 =
      (Except.ok r, t) := by
    rcases hvalid with ⟨h1, hc⟩ | ⟨h1, h2, hc⟩
    · rw [ctor_versioned env2.api n lib2 h1, if_neg hc]
      exact ⟨_, _, rfl⟩
    · rw [ctor_fallback env2.api n lib2 h1 h2, if_neg hc]
      exact ⟨_, _, rfl⟩
  obtain ⟨r, t, hr⟩ := hctor
  refine ⟨r, t, hr, ?_⟩
  simp only [AndroidSharedLibraryLoader.load, hmiss, hpath2, hopen2, hr]
  simp [AndroidSharedLibraryFactory.factory]

/-- C7, amended, on a fresh loader: `pinyin` fails to load from a library exporting neither
entry symbol, the registry stays empty, and the load succeeds once the file holds a library
with the versioned entry point. -/
theorem failed_load_is_atomic_and_retried_witness :
    AndroidSharedLibraryLoader.load (oneFile "/data/libpinyin.so" pinyinBroken [])
        (AndroidSharedLibraryLoader.AndroidSharedLibraryLoader []) ⟨"pinyin"⟩ 0 =
        (Except.error ((oneFile "/data/libpinyin.so" pinyinBroken []).api.error
            (((oneFile "/data/libpinyin.so" pinyinBroken []).api.resolve
              (((oneFile "/data/libpinyin.so" pinyinBroken []).api.resolve pinyinBroken
                ("fcitx_addon_factory_instance_" ++ "pinyin")).2)
              "fcitx_addon_factory_instance").2)),
          AndroidSharedLibraryLoader.AndroidSharedLibraryLoader [],
          [Event.locate "pinyin", Event.dlopen "/data/libpinyin.so",
            Event.resolve ("fcitx_addon_factory_instance_" ++ "pinyin"),
            Event.resolve "fcitx_addon_factory_instance"]) ∧
      (AndroidSharedLibraryLoader.load (oneFile "/data/libpinyin.so" pinyinBroken [])
        (AndroidSharedLibraryLoader.AndroidSharedLibraryLoader []) ⟨"pinyin"⟩ 0).2.1.registry_ =
        [] ∧
      ∃ r t,
        AndroidSharedLibraryFactory.AndroidSharedLibraryFactory
            (oneFile "/data/libpinyin.so" pinyinLibrary [(100, 7)]).api ⟨"pinyin"⟩
            pinyinLibrary = (Except.ok r, t) ∧
        AndroidSharedLibraryLoader.load (oneFile "/data/libpinyin.so" pinyinLibrary [(100, 7)])
            (AndroidSharedLibraryLoader.load (oneFile "/data/libpinyin.so" pinyinBroken [])
              (AndroidSharedLibraryLoader.AndroidSharedLibraryLoader []) ⟨"pinyin"⟩ 0).2.1
            ⟨"pinyin"⟩ 0 =
          (Except.ok r.factory.1,
            { standardPath_ := {}, registry_ := [("pinyin", r)], dependency_ := [] },
            [Event.locate "pinyin", Event.dlopen "/data/libpinyin.so"] ++ t) :=
  have h := failed_load_is_atomic_and_retried (oneFile "/data/libpinyin.so" pinyinBroken [])
    (oneFile "/data/libpinyin.so" pinyinLibrary [(100, 7)])
    (AndroidSharedLibraryLoader.AndroidSharedLibraryLoader []) "pinyin" 0 0
    "/data/libpinyin.so" "/data/libpinyin.so" pinyinBroken pinyinLibrary
    (by rfl) (by rfl) (by rfl) (by rfl) (by rfl) (by rfl) (by rfl)
    (Or.inl ⟨by decide, by decide⟩)
  ⟨h.1, h.2.1, h.2.2⟩

/-- C8: `type()` returns exactly "SharedLibrary" for every loader state, whatever its
dependency set and registry, and also after any history of loads, successful or failed. -/
theorem type_is_SharedLibrary {L : Type} (self : AndroidSharedLibraryLoader L)
    (history : List (Environment L × AddonInfo × AddonManagerPtr)) :
    self.type = "SharedLibrary" ∧ (self.loads history).type = "SharedLibrary" :=
  ⟨rfl, rfl⟩

end fcitx
